import Mathlib

/-!
Formal model of the resilient cached invocation layer of the travel-assistant
repository: `src/utils/cache_manager.py` (request fingerprinting and the
two-tier cache) and `src/utils/api_utils.py` (token budgeting and the
retrying dispatcher `call_openai_api`).

Modelling conventions, stated once:
* JSON-like Python values (the request payloads) are the inductive `Json`
  below; Python numbers (ints and floats) are rationals.
* `hashlib.md5(...).hexdigest()` is an external library primitive; it is
  modelled as an explicit `digest : String → String` parameter.  All
  fingerprint theorems hold for every digest (determinism) or for every
  injective digest (separation), matching the spec's requirement of a
  deterministic, collision-resistant digest.
* The SQLite store and the file store are association lists from the
  `query_hash` string to a payload and an expiry instant.  ISO-8601
  timestamps compare like the instants they denote, so time is a `Nat`.
* A `sqlite3` operation that raises is modelled by `DbMode.failing`;
  Python exception propagation is `Except String`.
* A text is represented by its whitespace word sequence (`List String`),
  since both `count_tokens` and `optimize_prompt` act on `text.split()`;
  the float factor `1.3` is the rational `13/10`.
-/

/-- JSON-like values: the structured request payloads handed to
`CacheManager._generate_key` (Python dicts, lists, strings, numbers,
booleans, `None`).  A dict is its field list in insertion order. -/
inductive Json where
  | null
  | bool (b : Bool)
  | num (q : ℚ)
  | str (s : String)
  | arr (elems : List Json)
  | obj (fields : List (String × Json))

/-- Key order used by `json.dumps(..., sort_keys=True)`: fields compare by
their key string. -/
def keyLe (p q : String × Json) : Prop := p.1 ≤ q.1

instance : DecidableRel keyLe := fun p q => inferInstanceAs (Decidable (p.1 ≤ q.1))

instance : IsTotal (String × Json) keyLe := ⟨fun p q => le_total p.1 q.1⟩

instance : IsTrans (String × Json) keyLe := ⟨fun _ _ _ h1 h2 => le_trans h1 h2⟩

/-- Strict version of `keyLe`; vacuously antisymmetric, which is what
uniqueness of sorted permutations needs. -/
def keyLt (p q : String × Json) : Prop := p.1 < q.1

instance : IsAntisymm (String × Json) keyLt :=
  ⟨fun _ _ h1 h2 => absurd (lt_trans h1 h2) (lt_irrefl _)⟩

/-- `sort_keys=True`: a dict's fields are emitted in ascending key order. -/
def sortFields (fs : List (String × Json)) : List (String × Json) :=
  fs.insertionSort keyLe

mutual

/-- Recursively sort every mapping's fields by key: the structure that
`json.dumps(query_data, sort_keys=True)` serializes. -/
def canon : Json → Json
  | .null => .null
  | .bool b => .bool b
  | .num q => .num q
  | .str s => .str s
  | .arr xs => .arr (canonList xs)
  | .obj fs => .obj (sortFields (canonFields fs))

def canonList : List Json → List Json
  | [] => []
  | x :: xs => canon x :: canonList xs

def canonFields : List (String × Json) → List (String × Json)
  | [] => []
  | (k, v) :: fs => (k, canon v) :: canonFields fs

end

/-- JSON string literal (escaping of special characters is irrelevant to the
claims and omitted). -/
def jquote (s : String) : String := "\"" ++ s ++ "\""

mutual

/-- Serialization of an (already canonicalized) value, with `json.dumps`'s
default separators. -/
def dumpsVal : Json → String
  | .null => "null"
  | .bool b => if b then "true" else "false"
  | .num q => toString q
  | .str s => jquote s
  | .arr xs => "[" ++ dumpsList xs ++ "]"
  | .obj fs => "\x7b" ++ dumpsFields fs ++ "\x7d"

def dumpsList : List Json → String
  | [] => ""
  | [x] => dumpsVal x
  | x :: y :: xs => dumpsVal x ++ ", " ++ dumpsList (y :: xs)

def dumpsFields : List (String × Json) → String
  | [] => ""
  | [(k, v)] => jquote k ++ ": " ++ dumpsVal v
  | (k, v) :: f :: fs => jquote k ++ ": " ++ dumpsVal v ++ ", " ++ dumpsFields (f :: fs)

end

/-- `json.dumps(query_data, sort_keys=True)`: serialize with every mapping's
keys in ascending order. -/
def dumps (j : Json) : String := dumpsVal (canon j)

mutual

/-- Python `str()` of a non-dict value (the `else` branch of
`_generate_key`); containers print their elements' `repr`. -/
def pyStr : Json → String
  | .null => "None"
  | .bool b => if b then "True" else "False"
  | .num q => toString q
  | .str s => s
  | .arr xs => "[" ++ pyReprList xs ++ "]"
  | .obj fs => "\x7b" ++ pyReprFields fs ++ "\x7d"

def pyRepr : Json → String
  | .null => "None"
  | .bool b => if b then "True" else "False"
  | .num q => toString q
  | .str s => "'" ++ s ++ "'"
  | .arr xs => "[" ++ pyReprList xs ++ "]"
  | .obj fs => "\x7b" ++ pyReprFields fs ++ "\x7d"

def pyReprList : List Json → String
  | [] => ""
  | [x] => pyRepr x
  | x :: y :: xs => pyRepr x ++ ", " ++ pyReprList (y :: xs)

def pyReprFields : List (String × Json) → String
  | [] => ""
  | [(k, v)] => "'" ++ k ++ "': " ++ pyRepr v
  | (k, v) :: f :: fs => "'" ++ k ++ "': " ++ pyRepr v ++ ", " ++ pyReprFields (f :: fs)

end

/-- The serialized form of `query_data` inside `_generate_key`:
`json.dumps(query_data, sort_keys=True)` when it is a dict, `str(query_data)`
otherwise. -/
def queryString : Json → String
  | .obj fs => dumps (.obj fs)
  | .null => pyStr .null
  | .bool b => pyStr (.bool b)
  | .num q => pyStr (.num q)
  | .str s => pyStr (.str s)
  | .arr xs => pyStr (.arr xs)

/-- `CacheManager._generate_key`: prefix the serialized query with the
`api_type` tag and hash.  `hashlib.md5(...).hexdigest()` is the opaque
`digest` parameter. -/
def generate_key (digest : String → String) (query_data : Json) (api_type : String) : String :=
  digest (api_type ++ ":" ++ queryString query_data)

/-! ## The two-tier cache (`CacheManager.get_cached_response` / `cache_response`) -/

/-- A record in the file fallback store (`<query_hash>.json`): either a
well-formed `\x7bresponse, expires_at\x7d` object or an unreadable file, whose
`json.load` raises and is swallowed by the bare `except: pass`. -/
inductive FileEntry where
  | good (response : Json) (expires_at : Nat)
  | corrupt

/-- The two stores: the `api_cache` SQLite table and the one-file-per-key
fallback directory, both keyed by the `query_hash` string. -/
structure CacheStore where
  db : List (String × Json × Nat)
  files : List (String × FileEntry)

/-- Whether `sqlite3` operations (`cursor.execute`, `conn.commit`) succeed or
raise `sqlite3.Error` on this run. -/
inductive DbMode where
  | ok
  | failing

/-- The row, if any, returned by
`SELECT ... WHERE query_hash = ? AND expires_at > ?`: expired rows are
filtered out by the query itself. -/
def dbLookup (rows : List (String × Json × Nat)) (h : String) (now : Nat) : Option Json :=
  match rows.find? (fun r => r.1 == h) with
  | some (_, payload, exp) => if now < exp then some payload else none
  | none => none

/-- `INSERT ... ON CONFLICT(query_hash) DO UPDATE`: replace the row for this
key, keep every other row. -/
def dbUpsert (rows : List (String × Json × Nat)) (h : String) (payload : Json) (exp : Nat) :
    List (String × Json × Nat) :=
  (h, payload, exp) :: rows.filter (fun r => r.1 != h)

/-- Reading `<query_hash>.json`: a corrupt file raises inside the
`try`/`except: pass` and is treated as absent; an unexpired good record
yields its `response` field. -/
def fileLookup (files : List (String × FileEntry)) (h : String) (now : Nat) : Option Json :=
  match files.find? (fun f => f.1 == h) with
  | some (_, .good resp exp) => if now < exp then some resp else none
  | some (_, .corrupt) => none
  | none => none

/-- `_save_to_file_cache`: (over)write the one file for this key. -/
def fileWrite (files : List (String × FileEntry)) (h : String) (resp : Json) (exp : Nat) :
    List (String × FileEntry) :=
  (h, FileEntry.good resp exp) :: files.filter (fun f => f.1 != h)

/-- `CacheManager.get_cached_response`.  The body runs inside `try ... finally
conn.close()` with no `except`: if the durable query raises
(`DbMode.failing`), the exception propagates to the caller.  On a successful
query: a returned row's payload is answered (`json.loads` round-trips the
stored `json.dumps`); on no row the file fallback is consulted, whose own
errors are swallowed. -/
def get_cached_response (digest : String → String) (mode : DbMode) (store : CacheStore)
    (now : Nat) (query_data : Json) (api_type : String) : Except String (Option Json) :=
  let h := generate_key digest query_data api_type
  match mode with
  | .failing => .error "database error"
  | .ok =>
    match dbLookup store.db h now with
    | some payload => .ok (some payload)
    | none => .ok (fileLookup store.files h now)

/-- `CacheManager.cache_response`: upsert into the durable store; if that
raises `sqlite3.Error`, the error is caught and the record is written to the
file fallback instead (`expires_at = now + expire_hours`). -/
def cache_response (digest : String → String) (mode : DbMode) (store : CacheStore)
    (now : Nat) (query_data : Json) (response_data : Json) (api_type : String)
    (expire_hours : Nat) : CacheStore :=
  let h := generate_key digest query_data api_type
  let expires := now + expire_hours
  match mode with
  | .ok => { store with db := dbUpsert store.db h response_data expires }
  | .failing => { store with files := fileWrite store.files h response_data expires }

/-! Connection lifecycle (claim C10): both operations open one fresh
connection (`conn = get_db_connection()`) and close it in a `finally`, on the
hit, miss, fallback and exception paths alike.  The `_tr` variants record the
connection events each execution path performs. -/

/-- A database connection event. -/
inductive ConnEvent where
  | openConn
  | closeConn
deriving DecidableEq

/-- `get_cached_response` with its connection trace: the connection is opened
first; each way out of the `try` — returned row, file fallback, miss, or a
propagating exception — passes through the `finally` that closes it. -/
def get_cached_response_tr (digest : String → String) (mode : DbMode) (store : CacheStore)
    (now : Nat) (query_data : Json) (api_type : String) :
    Except String (Option Json) × List ConnEvent :=
  let h := generate_key digest query_data api_type
  match mode with
  | .failing => (.error "database error", [ConnEvent.openConn, ConnEvent.closeConn])
  | .ok =>
    match dbLookup store.db h now with
    | some payload => (.ok (some payload), [ConnEvent.openConn, ConnEvent.closeConn])
    | none => (.ok (fileLookup store.files h now), [ConnEvent.openConn, ConnEvent.closeConn])

/-- `cache_response` with its connection trace: the upsert path and the
caught-`sqlite3.Error` fallback path both end in the `finally` close. -/
def cache_response_tr (digest : String → String) (mode : DbMode) (store : CacheStore)
    (now : Nat) (query_data : Json) (response_data : Json) (api_type : String)
    (expire_hours : Nat) : CacheStore × List ConnEvent :=
  let h := generate_key digest query_data api_type
  let expires := now + expire_hours
  match mode with
  | .ok => ({ store with db := dbUpsert store.db h response_data expires },
      [ConnEvent.openConn, ConnEvent.closeConn])
  | .failing => ({ store with files := fileWrite store.files h response_data expires },
      [ConnEvent.openConn, ConnEvent.closeConn])

/-! ## Token budgeter (`count_tokens`, `optimize_prompt`) -/

/-- `count_tokens` on the always-available approximation path
(`len(text.split()) * 1.3`): the text is its word sequence, the float factor
is `13/10`. -/
def count_tokens (words : List String) : ℚ :=
  (words.length : ℚ) * (13 / 10)

/-- Python `int()` on a float/rational: truncation toward zero. -/
def pyInt (q : ℚ) : Int :=
  if q < 0 then -Int.floor (-q) else Int.floor q

/-- Python slicing `xs[:n]` with a possibly negative bound: a negative `n`
keeps all but the last `|n|` elements (empty when `|n| ≥ len(xs)`). -/
def pySliceTo {α : Type} (xs : List α) (n : Int) : List α :=
  if 0 ≤ n then xs.take n.toNat else xs.take (xs.length - (-n).toNat)

/-- The word sequence of the fixed notice
`"\n\n[Note: The original prompt was truncated to fit within token limits.]"`
that `optimize_prompt` appends after truncating. -/
def truncationNote : List String :=
  ["[Note:", "The", "original", "prompt", "was", "truncated", "to", "fit",
   "within", "token", "limits.]"]

/-- `optimize_prompt(prompt, max_tokens)`.  Under budget: the prompt is
returned unchanged.  Over budget: `ratio = max_tokens / current_tokens` —
which raises `ZeroDivisionError` when `current_tokens` is zero — then the
word list is sliced to `int(len(words) * ratio) - 20` and the truncation
notice appended. -/
def optimize_prompt (prompt : List String) (max_tokens : ℚ) : Except String (List String) :=
  let current_tokens := count_tokens prompt
  if current_tokens ≤ max_tokens then
    .ok prompt
  else if current_tokens = 0 then
    .error "ZeroDivisionError"
  else
    let ratio := max_tokens / current_tokens
    let new_length : Int := pyInt ((prompt.length : ℚ) * ratio) - 20
    .ok (pySliceTo prompt new_length ++ truncationNote)

/-! ## The resilient invoker (`call_openai_api`) -/

/-- Python truthiness of the cached value, as tested by
`if cached_response:`. -/
def truthy : Json → Bool
  | .null => false
  | .bool b => b
  | .num q => !(q == 0)
  | .str s => !(s == "")
  | .arr xs => !xs.isEmpty
  | .obj fs => !fs.isEmpty

/-- Token total contributed by the optional system message
(`sum(count_tokens(msg["content"]) for msg in messages)` restricted to the
system entry; an absent system prompt contributes no message). -/
def sysTokens : Option (List String) → ℚ
  | some s => count_tokens s
  | none => 0

/-- The `cache_key` dict built by `call_openai_api` before any shaping: the
original prompt and system prompt (texts are their word sequences, joined for
the JSON string field), model, temperature and output-token limit. -/
def mkCacheKey (prompt : List String) (system_prompt : Option (List String))
    (model : String) (temperature : ℚ) (max_tokens : Nat) : Json :=
  .obj [("prompt", .str (String.intercalate " " prompt)),
        ("system_prompt",
          match system_prompt with
          | some s => .str (String.intercalate " " s)
          | none => .null),
        ("model", .str model),
        ("temperature", .num temperature),
        ("max_tokens", .num (max_tokens : ℚ))]

/-- What one run of `call_openai_api` did and returned. -/
structure CallResult where
  result : Json
  remoteCalls : Nat
  tokenCounting : Bool
  shaping : Bool
  store : CacheStore
  notices : List String

/-- Outcome of the `for attempt in range(max_retries)` loop. -/
structure LoopOut where
  result : Json
  calls : Nat
  store : CacheStore
  notices : List String

/-- The retry loop of `call_openai_api`: `remote i` is the outcome of the
`openai_client.chat.completions.create` call on attempt `i` (0-based);
`remaining + 1` attempts are left including the current one.  On success the
result is cached (default `expire_hours = 24`) and returned; on failure the
error is retried until the final attempt, whose error message is returned as
`"Error: ..."`.  The `remaining = 0` base case is Python falling off the loop
and returning `None`; it is unreachable when starting from `max_retries = 3`. -/
def apiLoop (digest : String → String) (mode : DbMode) (remote : Nat → Except String String)
    (now : Nat) (cache_key : Json) (cb : Bool) :
    CacheStore → Nat → Nat → List String → LoopOut
  | store, _, 0, ns => ⟨.null, 0, store, ns⟩
  | store, attempt, 1, ns =>
    let ns1 := ns ++ (if cb && decide (0 < attempt) then
      ["Retrying API call (attempt " ++ toString (attempt + 1) ++ "/3)..."] else [])
    match remote attempt with
    | .ok result =>
      let store1 := cache_response digest mode store now cache_key (.str result) "openai" 24
      let ns2 := ns1 ++ (if cb then ["Successfully received response from OpenAI"] else [])
      ⟨.str result, 1, store1, ns2⟩
    | .error e =>
      let ns2 := ns1 ++ (if cb then ["Error: " ++ e] else [])
      ⟨.str ("Error: " ++ e), 1, store, ns2⟩
  | store, attempt, remaining + 2, ns =>
    let ns1 := ns ++ (if cb && decide (0 < attempt) then
      ["Retrying API call (attempt " ++ toString (attempt + 1) ++ "/3)..."] else [])
    match remote attempt with
    | .ok result =>
      let store1 := cache_response digest mode store now cache_key (.str result) "openai" 24
      let ns2 := ns1 ++ (if cb then ["Successfully received response from OpenAI"] else [])
      ⟨.str result, 1, store1, ns2⟩
    | .error e =>
      let ns2 := ns1 ++ (if cb then ["Error: " ++ e] else [])
      let out := apiLoop digest mode remote now cache_key cb store (attempt + 1)
        (remaining + 1) ns2
      ⟨out.result, out.calls + 1, out.store, out.notices⟩

/-- `call_openai_api(prompt, system_prompt, model, temperature, max_tokens,
progress_callback)` with the OpenAI module available.  `cb` records whether a
progress callback was supplied; notices it would receive are collected in
order.  The cache is consulted first (a raised durable-store error
propagates); a truthy cached value is returned with no token counting, no
shaping and no remote call.  On a miss the message token total is computed,
the user prompt is shaped when it exceeds 4000 (a shaping exception
propagates), and the retry loop runs with `max_retries = 3`. -/
def call_openai_api (digest : String → String) (mode : DbMode)
    (remote : Nat → Except String String) (store : CacheStore) (now : Nat)
    (prompt : List String) (system_prompt : Option (List String))
    (model : String) (temperature : ℚ) (max_tokens : Nat) (cb : Bool) :
    Except String CallResult :=
  let ns0 : List String := if cb then ["Preparing to call OpenAI API..."] else []
  let cache_key := mkCacheKey prompt system_prompt model temperature max_tokens
  match get_cached_response digest mode store now cache_key "openai" with
  | .error e => .error e
  | .ok cachedOpt =>
    let missPath : Except String CallResult :=
      let ns1 := ns0 ++ (if cb then ["Making API call to OpenAI..."] else [])
      let total_tokens := sysTokens system_prompt + count_tokens prompt
      let shaped : Except String (List String) × Bool :=
        if 4000 < total_tokens then
          (optimize_prompt prompt
            (4000 - count_tokens (system_prompt.getD [])), true)
        else
          (.ok prompt, false)
      match shaped.1 with
      | .error e => .error e
      | .ok _ =>
        let ns2 := ns1 ++ (if cb && shaped.2 then
          ["Optimizing prompt to fit within token limits..."] else [])
        let out := apiLoop digest mode remote now cache_key cb store 0 3 ns2
        .ok ⟨out.result, out.calls, true, shaped.2, out.store, out.notices⟩
    match cachedOpt with
    | some v =>
      if truthy v then
        .ok ⟨v, 0, false, false, store,
          ns0 ++ (if cb then ["Retrieved response from cache"] else [])⟩
      else missPath
    | none => missPath

/-! ## Helper definitions and lemmas -/

/-- A concrete digest for closed instances: the identity on the canonical
string (trivially deterministic and injective). -/
def idDigest : String → String := fun s => s

/-- Looking up the key just written to the file fallback finds the fresh
record (subject to its expiry). -/
theorem fileLookup_fileWrite (files : List (String × FileEntry)) (h : String) (r : Json)
    (x now : Nat) :
    fileLookup (fileWrite files h r x) h now = if now < x then some r else none := by
  simp [fileLookup, fileWrite, List.find?]

/-- Looking up the key just upserted into the durable store finds the fresh
row (subject to its expiry). -/
theorem dbLookup_dbUpsert (rows : List (String × Json × Nat)) (h : String) (p : Json)
    (x now : Nat) :
    dbLookup (dbUpsert rows h p x) h now = if now < x then some p else none := by
  simp [dbLookup, dbUpsert, List.find?]

/-! ## C10 — connection lifecycle -/

/-- C10: every call to `get_cached_response` and to `cache_response` opens
exactly one fresh database connection and closes it on every execution path —
on a hit, a miss, a fallback, and also when an exception propagates out of the
operation. -/
theorem connection_lifecycle (digest : String → String) (mode : DbMode) (store : CacheStore)
    (now : Nat) (q resp : Json) (t : String) (e : Nat) :
    (get_cached_response_tr digest mode store now q t).2 =
      [ConnEvent.openConn, ConnEvent.closeConn] ∧
    (cache_response_tr digest mode store now q resp t e).2 =
      [ConnEvent.openConn, ConnEvent.closeConn] := by
  constructor
  · cases mode with
    | failing => rfl
    | ok =>
      cases hdb : dbLookup store.db (generate_key digest q t) now <;>
        simp [get_cached_response_tr, hdb]
  · cases mode <;> rfl

/-! ## C1 — cache read error containment -/

/-- C1 counterexample: a durable-store infrastructure error during a cache
lookup is not swallowed — `get_cached_response` propagates it to the caller
instead of behaving as a miss. -/
theorem cache_read_error_cex :
    get_cached_response idDigest DbMode.failing ⟨[], []⟩ 0 (Json.str "q") "openai" =
      Except.error "database error" ∧
    ∀ r, get_cached_response idDigest DbMode.failing ⟨[], []⟩ 0 (Json.str "q") "openai" ≠
      Except.ok r := by
  exact ⟨rfl, fun r h => by simp [get_cached_response] at h⟩

/-- C1 amended: only fallback-store read failures are contained on the read
path — when the durable query executes without raising, `get_cached_response`
never raises, whatever the fallback store holds (including corrupt files,
which are swallowed and treated as a miss); but a durable-store
infrastructure error during the lookup propagates to the caller. -/
theorem cache_read_error_containment (digest : String → String) (store : CacheStore)
    (now : Nat) (q : Json) (t : String) :
    (∃ r, get_cached_response digest DbMode.ok store now q t = Except.ok r) ∧
    get_cached_response digest DbMode.failing store now q t =
      Except.error "database error" := by
  refine ⟨?_, rfl⟩
  cases hdb : dbLookup store.db (generate_key digest q t) now with
  | some p => exact ⟨some p, by simp [get_cached_response, hdb]⟩
  | none =>
    exact ⟨fileLookup store.files (generate_key digest q t) now,
      by simp [get_cached_response, hdb]⟩

/-! ## C3 — fallback across a durable outage -/

/-- C3 counterexample: with the durable store raising on every operation,
`cache_response` does degrade the write to the file store, but the subsequent
`get_cached_response` (durable store still raising) does not return the
cached value — it propagates the durable error before ever consulting the
fallback store. -/
theorem fallback_outage_cex :
    get_cached_response idDigest DbMode.failing
      (cache_response idDigest DbMode.failing ⟨[], []⟩ 0 (Json.str "q") (Json.str "v")
        "openai" 24)
      0 (Json.str "q") "openai" = Except.error "database error" ∧
    ∀ r, get_cached_response idDigest DbMode.failing
      (cache_response idDigest DbMode.failing ⟨[], []⟩ 0 (Json.str "q") (Json.str "v")
        "openai" 24)
      0 (Json.str "q") "openai" ≠ Except.ok r := by
  exact ⟨rfl, fun r h => by simp [get_cached_response] at h⟩

/-- C3 amended: the fallback survives a durable *write* outage.  If the
durable upsert raises, the record is written to the file store, and a
subsequent `get_cached_response` whose durable query executes without raising
(necessarily a durable miss, hypothesis `hdb`) returns the cached value from
the fallback store; if instead the durable read itself raises, the error
propagates (see the counterexample). -/
theorem fallback_survives_write_outage (digest : String → String) (store : CacheStore)
    (now : Nat) (q resp : Json) (t : String) (e : Nat) (he : 0 < e)
    (hdb : dbLookup store.db (generate_key digest q t) now = none) :
    get_cached_response digest DbMode.ok
      (cache_response digest DbMode.failing store now q resp t e) now q t =
      Except.ok (some resp) := by
  simp [get_cached_response, cache_response, hdb, fileLookup_fileWrite,
    Nat.lt_add_of_pos_right he]

/-- Witness for the amended C3 theorem at a concrete instance. -/
theorem fallback_survives_write_outage_witness :
    get_cached_response idDigest DbMode.ok
      (cache_response idDigest DbMode.failing ⟨[], []⟩ 0 (Json.str "q") (Json.str "v")
        "openai" 24)
      0 (Json.str "q") "openai" = Except.ok (some (Json.str "v")) :=
  fallback_survives_write_outage idDigest ⟨[], []⟩ 0 (Json.str "q") (Json.str "v")
    "openai" 24 (by decide) rfl

/-! ## C8 — empty-prompt shaping safety -/

/-- C8 counterexample: with a negative budget — which `call_openai_api`
produces as `4000 - count_tokens(system_prompt)` whenever the system prompt
alone exceeds the ceiling — an empty (zero-token) prompt does not come back
unchanged: the ratio is computed with a zero divisor and `optimize_prompt`
raises `ZeroDivisionError`. -/
theorem empty_prompt_shaping_cex :
    optimize_prompt [] (-1) = Except.error "ZeroDivisionError" := by
  norm_num [optimize_prompt, count_tokens]

/-- C8 amended: for every *nonnegative* budget, `optimize_prompt` applied to
a prompt whose token estimate is zero returns the prompt unchanged and never
raises; in that scope the ratio division is never executed at all. -/
theorem empty_prompt_shaping_safe (prompt : List String) (b : ℚ)
    (h0 : count_tokens prompt = 0) (hb : 0 ≤ b) :
    optimize_prompt prompt b = Except.ok prompt := by
  simp only [optimize_prompt]
  rw [h0, if_pos hb]

/-- Witness for the amended C8 theorem: the empty prompt with budget `0`. -/
theorem empty_prompt_shaping_safe_witness :
    optimize_prompt [] 0 = Except.ok [] :=
  empty_prompt_shaping_safe [] 0 (by norm_num [count_tokens]) le_rfl

/-! ## C2 — retry ceiling and terminal error -/

/-- A non-empty prompt always shapes without raising: its token estimate is
positive, so neither branch of `optimize_prompt` divides by zero. -/
theorem optimize_prompt_ok_of_ne_nil (prompt : List String) (b : ℚ) (hp : prompt ≠ []) :
    ∃ ws, optimize_prompt prompt b = Except.ok ws := by
  have h1 : 0 < prompt.length := List.length_pos.mpr hp
  have h2 : (0 : ℚ) < (prompt.length : ℚ) := by exact_mod_cast h1
  have hlen : (0 : ℚ) < (prompt.length : ℚ) * (13 / 10) := by nlinarith
  by_cases hc : (prompt.length : ℚ) * (13 / 10) ≤ b
  · exact ⟨prompt, by simp only [optimize_prompt, count_tokens]; rw [if_pos hc]⟩
  · exact ⟨_, by simp only [optimize_prompt, count_tokens]; rw [if_neg hc, if_neg hlen.ne']⟩

/-- C2: for every invocation that reaches the remote phase (the durable
lookup succeeded with no truthy hit, and the prompt is non-degenerate so
shaping is defined) whose remote call fails on every attempt,
`call_openai_api` performs exactly `max_retries = 3` remote calls, never
more, and only then surfaces the *last* attempt's underlying error as the
returned failure value; the store is left unchanged. -/
theorem retry_ceiling (digest : String → String) (store : CacheStore) (now : Nat)
    (prompt : List String) (system_prompt : Option (List String)) (model : String)
    (temperature : ℚ) (max_tokens : Nat) (cb : Bool) (errs : Nat → String)
    (r : Option Json)
    (h1 : get_cached_response digest DbMode.ok store now
      (mkCacheKey prompt system_prompt model temperature max_tokens) "openai" =
        Except.ok r)
    (h2 : ∀ v, r = some v → truthy v = false)
    (hp : prompt ≠ []) :
    ∃ cr, call_openai_api digest DbMode.ok (fun i => Except.error (errs i)) store now
        prompt system_prompt model temperature max_tokens cb = Except.ok cr ∧
      cr.remoteCalls = 3 ∧
      cr.result = .str ("Error: " ++ errs 2) ∧
      cr.store = store := by
  cases r with
  | some v =>
    simp only [call_openai_api, h1]
    rw [if_neg (show ¬ truthy v = true by simp [h2 v rfl])]
    by_cases hT : (4000 : ℚ) < sysTokens system_prompt + count_tokens prompt
    · obtain ⟨ws, hws⟩ := optimize_prompt_ok_of_ne_nil prompt
        (4000 - count_tokens (system_prompt.getD [])) hp
      simp only [if_pos hT, hws]
      exact ⟨_, rfl, rfl, rfl, rfl⟩
    · simp only [if_neg hT]
      exact ⟨_, rfl, rfl, rfl, rfl⟩
  | none =>
    simp only [call_openai_api, h1]
    by_cases hT : (4000 : ℚ) < sysTokens system_prompt + count_tokens prompt
    · obtain ⟨ws, hws⟩ := optimize_prompt_ok_of_ne_nil prompt
        (4000 - count_tokens (system_prompt.getD [])) hp
      simp only [if_pos hT, hws]
      exact ⟨_, rfl, rfl, rfl, rfl⟩
    · simp only [if_neg hT]
      exact ⟨_, rfl, rfl, rfl, rfl⟩

/-- Witness for the retry-ceiling theorem at a concrete instance. -/
theorem retry_ceiling_witness :
    ∃ cr, call_openai_api idDigest DbMode.ok
        (fun i => Except.error ("boom " ++ toString i)) ⟨[], []⟩ 0
        ["hi"] none "m" 1 50 false = Except.ok cr ∧
      cr.remoteCalls = 3 ∧
      cr.result = .str ("Error: " ++ ("boom " ++ toString 2)) ∧
      cr.store = ⟨[], []⟩ :=
  retry_ceiling idDigest ⟨[], []⟩ 0 ["hi"] none "m" 1 50 false
    (fun i => "boom " ++ toString i) none rfl (fun v h => nomatch h) (by decide)

/-! ## C4 — shaping never exceeds the budget -/

/-- C4: for every text and every budget of at least `27.3` tokens (the
minimum making the truncated length positive), `optimize_prompt` returns
without raising, its output's token estimate is at most the budget, and in
the over-budget case the kept word sequence has exactly
`floor(word_count * b / estimate(t)) - 20` words followed by the fixed
truncation notice. -/
theorem shaping_never_exceeds_budget (t : List String) (b : ℚ)
    (hb : (273 : ℚ) / 10 ≤ b) :
    ∃ out, optimize_prompt t b = Except.ok out ∧ count_tokens out ≤ b ∧
      (b < count_tokens t →
        out = t.take (Int.toNat (Int.floor ((t.length : ℚ) * b / count_tokens t) - 20)) ++
          truncationNote) := by
  by_cases hc : count_tokens t ≤ b
  · refine ⟨t, ?_, hc, fun hlt => absurd hlt (not_lt.mpr hc)⟩
    simp only [optimize_prompt]
    rw [if_pos hc]
  · push_neg at hc
    have hb0 : (0 : ℚ) < b := lt_of_lt_of_le (by norm_num) hb
    have hcpos : (0 : ℚ) < count_tokens t := lt_trans hb0 hc
    have hn0 : (0 : ℚ) < (t.length : ℚ) := by
      by_contra hn
      push_neg at hn
      have hz : count_tokens t ≤ 0 := by
        unfold count_tokens
        nlinarith
      linarith
    have hnne : (t.length : ℚ) ≠ 0 := ne_of_gt hn0
    have hct : count_tokens t = (t.length : ℚ) * (13 / 10) := rfl
    have heq1 : (t.length : ℚ) * (b / count_tokens t) = 10 * b / 13 := by
      rw [hct]
      field_simp
      ring
    have heq2 : (t.length : ℚ) * b / count_tokens t = 10 * b / 13 := by
      rw [hct]
      field_simp
      ring
    have hF21 : (21 : ℤ) ≤ Int.floor ((10 : ℚ) * b / 13) := by
      rw [Int.le_floor]
      push_cast
      linarith
    have hFle : ((Int.floor ((10 : ℚ) * b / 13) : ℤ) : ℚ) ≤ 10 * b / 13 := Int.floor_le _
    have hFn : Int.floor ((10 : ℚ) * b / 13) < (t.length : ℤ) := by
      rw [Int.floor_lt]
      push_cast
      rw [hct] at hc
      linarith
    have hpy : pyInt ((t.length : ℚ) * (b / count_tokens t)) =
        Int.floor ((10 : ℚ) * b / 13) := by
      rw [heq1]
      unfold pyInt
      rw [if_neg (not_lt.mpr (by linarith))]
    have hknn : (0 : ℤ) ≤ Int.floor ((10 : ℚ) * b / 13) - 20 := by linarith
    have hks : ((Int.toNat (Int.floor ((10 : ℚ) * b / 13) - 20) : ℤ)) =
        Int.floor ((10 : ℚ) * b / 13) - 20 := Int.toNat_of_nonneg hknn
    have hkn : Int.toNat (Int.floor ((10 : ℚ) * b / 13) - 20) ≤ t.length := by omega
    have hslice : pySliceTo t (pyInt ((t.length : ℚ) * (b / count_tokens t)) - 20) =
        t.take (Int.toNat (Int.floor ((10 : ℚ) * b / 13) - 20)) := by
      rw [hpy]
      unfold pySliceTo
      rw [if_pos hknn]
    refine ⟨t.take (Int.toNat (Int.floor ((10 : ℚ) * b / 13) - 20)) ++ truncationNote,
      ?_, ?_, ?_⟩
    · simp only [optimize_prompt]
      rw [if_neg (not_le.mpr hc), if_neg (ne_of_gt hcpos), hslice]
    · have hlen : (t.take (Int.toNat (Int.floor ((10 : ℚ) * b / 13) - 20)) ++
          truncationNote).length =
          Int.toNat (Int.floor ((10 : ℚ) * b / 13) - 20) + 11 := by
        simp [truncationNote, min_eq_left hkn]
      unfold count_tokens
      rw [hlen]
      have hcast : ((Int.toNat (Int.floor ((10 : ℚ) * b / 13) - 20) : ℚ)) =
          ((Int.floor ((10 : ℚ) * b / 13) : ℤ) : ℚ) - 20 := by
        exact_mod_cast hks
      push_cast
      push_cast at hcast
      rw [hcast]
      linarith
    · intro _
      rw [heq2]

/-- Witness for the budget-shaping theorem at a concrete over-budget text
(30 words, budget 28: one kept word plus the notice). -/
theorem shaping_never_exceeds_budget_witness :
    ∃ out, optimize_prompt (List.replicate 30 "w") 28 = Except.ok out ∧
      count_tokens out ≤ 28 ∧
      (28 < count_tokens (List.replicate 30 "w") →
        out = (List.replicate 30 "w").take
            (Int.toNat (Int.floor (((List.replicate 30 "w").length : ℚ) * 28 /
              count_tokens (List.replicate 30 "w")) - 20)) ++ truncationNote) :=
  shaping_never_exceeds_budget (List.replicate 30 "w") 28 (by norm_num)

/-! ## C6 — fingerprint separation -/

/-- C6: distinct request classes never produce the same cache key for the
same payload.  The canonical strings handed to the digest differ (the class
is a prefix ending at the first separator of a fixed-layout string), so the
keys differ for every injective digest — the source's `md5` hexdigest is
assumed collision-free by the spec. -/
theorem fingerprint_separation (digest : String → String)
    (hinj : Function.Injective digest) (r : Json) (A B : String) (hne : A ≠ B) :
    generate_key digest r A ≠ generate_key digest r B := by
  intro h
  apply hne
  have h2 := hinj h
  have hd := congrArg String.data h2
  simp only [String.data_append] at hd
  exact String.ext (List.append_cancel_right (List.append_cancel_right hd))

/-- Witness for fingerprint separation: the identity digest (injective) on
the classes `"openai"` and `"geocode"`. -/
theorem fingerprint_separation_witness :
    generate_key idDigest (.str "x") "openai" ≠ generate_key idDigest (.str "x") "geocode" :=
  fingerprint_separation idDigest (fun _ _ h => h) (.str "x") "openai" "geocode" (by decide)

/-! ## C5 — fingerprint determinism -/

mutual

/-- Structural equality of JSON-like values "regardless of key
insertion/iteration order": equal leaves, pointwise-equivalent arrays, and
mappings with the same key-value content up to an arbitrary permutation of
the field list, recursively at every level. -/
inductive JEquiv : Json → Json → Prop where
  | null : JEquiv .null .null
  | bool (b) : JEquiv (.bool b) (.bool b)
  | num (q) : JEquiv (.num q) (.num q)
  | str (s) : JEquiv (.str s) (.str s)
  | arr : JEquivList xs ys → JEquiv (.arr xs) (.arr ys)
  | obj : JEquivFields fs gs → List.Perm gs gs2 → JEquiv (.obj fs) (.obj gs2)

inductive JEquivList : List Json → List Json → Prop where
  | nil : JEquivList [] []
  | cons : JEquiv x y → JEquivList xs ys → JEquivList (x :: xs) (y :: ys)

inductive JEquivFields : List (String × Json) → List (String × Json) → Prop where
  | nil : JEquivFields [] []
  | cons (k) : JEquiv v w → JEquivFields fs gs →
      JEquivFields ((k, v) :: fs) ((k, w) :: gs)

end

mutual

/-- Well-formedness of a payload as a Python value: every mapping has
pairwise-distinct keys (a `dict` invariant). -/
def WF : Json → Prop
  | .null => True
  | .bool _ => True
  | .num _ => True
  | .str _ => True
  | .arr xs => WFlist xs
  | .obj fs => (fs.map Prod.fst).Nodup ∧ WFfields fs

def WFlist : List Json → Prop
  | [] => True
  | x :: xs => WF x ∧ WFlist xs

def WFfields : List (String × Json) → Prop
  | [] => True
  | (_, v) :: fs => WF v ∧ WFfields fs

end

/-- Pointwise field equivalence keeps the key sequence. -/
theorem jequivFields_keys : ∀ {fs gs : List (String × Json)}, JEquivFields fs gs →
    fs.map Prod.fst = gs.map Prod.fst
  | _, _, .nil => rfl
  | _, _, .cons k _ hs => congrArg (List.cons k) (jequivFields_keys hs)

/-- `canonFields` is a `map` over the field list. -/
theorem canonFields_eq_map : ∀ fs : List (String × Json),
    canonFields fs = fs.map (fun p => (p.1, canon p.2))
  | [] => rfl
  | (k, v) :: fs => congrArg (List.cons (k, canon v)) (canonFields_eq_map fs)

/-- `canonFields` keeps the key sequence. -/
theorem canonFields_keys : ∀ fs : List (String × Json),
    (canonFields fs).map Prod.fst = fs.map Prod.fst
  | [] => rfl
  | (k, _) :: fs => congrArg (List.cons k) (canonFields_keys fs)

/-- Permuting the field list permutes its canonicalization. -/
theorem canonFields_perm {gs gs2 : List (String × Json)} (hp : gs.Perm gs2) :
    (canonFields gs).Perm (canonFields gs2) := by
  rw [canonFields_eq_map, canonFields_eq_map]
  exact hp.map _

/-- Sorting by key is insensitive to the order of a field list with distinct
keys: two sorted-by-key permutations of each other with nodup keys coincide. -/
theorem sortFields_eq_of_perm {l1 l2 : List (String × Json)} (hp : l1.Perm l2)
    (hn : (l1.map Prod.fst).Nodup) : sortFields l1 = sortFields l2 := by
  have hperm : (sortFields l1).Perm (sortFields l2) :=
    ((List.perm_insertionSort keyLe l1).trans hp).trans
      (List.perm_insertionSort keyLe l2).symm
  have hn1 : ((sortFields l1).map Prod.fst).Nodup :=
    (((List.perm_insertionSort keyLe l1).map Prod.fst).nodup_iff).mpr hn
  have hn2 : ((sortFields l2).map Prod.fst).Nodup :=
    (((List.perm_insertionSort keyLe l2).map Prod.fst).nodup_iff).mpr
      (((hp.map Prod.fst).nodup_iff).mp hn)
  have hlt1 : List.Sorted keyLt (sortFields l1) :=
    ((List.sorted_insertionSort keyLe l1).and (List.pairwise_map.mp hn1)).imp
      fun h => lt_of_le_of_ne h.1 h.2
  have hlt2 : List.Sorted keyLt (sortFields l2) :=
    ((List.sorted_insertionSort keyLe l2).and (List.pairwise_map.mp hn2)).imp
      fun h => lt_of_le_of_ne h.1 h.2
  exact List.eq_of_perm_of_sorted hperm hlt1 hlt2

mutual

/-- Canonicalization identifies structurally equal values (distinct keys
assumed on the left value, as Python dicts guarantee). -/
theorem canon_eq_of_equiv : ∀ {a b : Json}, JEquiv a b → WF a → canon a = canon b
  | _, _, .null, _ => rfl
  | _, _, .bool _, _ => rfl
  | _, _, .num _, _ => rfl
  | _, _, .str _, _ => rfl
  | _, _, .arr h, hw => congrArg Json.arr (canonList_eq_of_equiv h hw)
  | _, _, @JEquiv.obj fs gs gs2 hf hp, hw => by
    have h1 : canonFields fs = canonFields gs := canonFields_eq_of_equiv hf hw.2
    have hnd : ((canonFields gs).map Prod.fst).Nodup := by
      rw [canonFields_keys, ← jequivFields_keys hf]
      exact hw.1
    have h2 : sortFields (canonFields gs) = sortFields (canonFields gs2) :=
      sortFields_eq_of_perm (canonFields_perm hp) hnd
    calc canon (Json.obj fs) = Json.obj (sortFields (canonFields fs)) := rfl
      _ = Json.obj (sortFields (canonFields gs)) := by rw [h1]
      _ = Json.obj (sortFields (canonFields gs2)) := by rw [h2]
      _ = canon (Json.obj gs2) := rfl

theorem canonList_eq_of_equiv : ∀ {xs ys : List Json}, JEquivList xs ys → WFlist xs →
    canonList xs = canonList ys
  | _, _, .nil, _ => rfl
  | _, _, .cons h hs, hw => by
    rw [canonList, canonList, canon_eq_of_equiv h hw.1, canonList_eq_of_equiv hs hw.2]

theorem canonFields_eq_of_equiv : ∀ {fs gs : List (String × Json)},
    JEquivFields fs gs → WFfields fs → canonFields fs = canonFields gs
  | _, _, .nil, _ => rfl
  | _, _, .cons k h hs, hw => by
    rw [canonFields, canonFields, canon_eq_of_equiv h hw.1,
      canonFields_eq_of_equiv hs hw.2]

end

/-- C5: for every request class and every pair of structurally equal
JSON-like mappings — equal key-value content regardless of key
insertion/iteration order, including nested mappings, with distinct keys per
mapping as Python dicts guarantee — `_generate_key` produces the same cache
key, for every digest function. -/
theorem fingerprint_deterministic (digest : String → String) (c : String)
    (fs1 fs2 : List (String × Json)) (hw : WF (.obj fs1))
    (h : JEquiv (.obj fs1) (.obj fs2)) :
    generate_key digest (.obj fs1) c = generate_key digest (.obj fs2) c := by
  show digest (c ++ ":" ++ dumpsVal (canon (.obj fs1))) =
    digest (c ++ ":" ++ dumpsVal (canon (.obj fs2)))
  rw [canon_eq_of_equiv h hw]

/-- Witness for fingerprint determinism: a nested mapping with both levels
reordered produces the same key. -/
theorem fingerprint_deterministic_witness :
    generate_key idDigest
      (.obj [("b", .num 1), ("a", .obj [("y", .num 2), ("x", .num 3)])]) "openai" =
    generate_key idDigest
      (.obj [("a", .obj [("x", .num 3), ("y", .num 2)]), ("b", .num 1)]) "openai" :=
  fingerprint_deterministic idDigest "openai"
    [("b", .num 1), ("a", .obj [("y", .num 2), ("x", .num 3)])]
    [("a", .obj [("x", .num 3), ("y", .num 2)]), ("b", .num 1)]
    (by simp [WF, WFfields])
    (JEquiv.obj
      (JEquivFields.cons "b" (JEquiv.num 1)
        (JEquivFields.cons "a"
          (JEquiv.obj
            (JEquivFields.cons "y" (JEquiv.num 2)
              (JEquivFields.cons "x" (JEquiv.num 3) JEquivFields.nil))
            (List.Perm.swap ("x", Json.num 3) ("y", Json.num 2) []))
          JEquivFields.nil))
      (List.Perm.swap ("a", Json.obj [("x", Json.num 3), ("y", Json.num 2)])
        ("b", Json.num 1) []))

/-! ## C9 — progress-callback noninterference -/

/-- The caller-observable outcome of `call_openai_api`: the returned or
raised value, the number of remote calls performed, whether token counting
and shaping ran, and the final store — everything except the progress
notices, which are the observer's side channel. -/
def observables :
    Except String CallResult → Except String (Json × Nat × Bool × Bool × CacheStore)
  | .error e => .error e
  | .ok cr => .ok (cr.result, cr.remoteCalls, cr.tokenCounting, cr.shaping, cr.store)

/-- The retry loop's result, call count and store do not depend on the
presence of a progress callback nor on the notices accumulated so far. -/
theorem apiLoop_noninterference (digest : String → String) (mode : DbMode)
    (remote : Nat → Except String String) (now : Nat) (ck : Json) :
    ∀ (rem attempt : Nat) (store : CacheStore) (ns ns2 : List String),
      (apiLoop digest mode remote now ck true store attempt rem ns).result =
        (apiLoop digest mode remote now ck false store attempt rem ns2).result ∧
      (apiLoop digest mode remote now ck true store attempt rem ns).calls =
        (apiLoop digest mode remote now ck false store attempt rem ns2).calls ∧
      (apiLoop digest mode remote now ck true store attempt rem ns).store =
        (apiLoop digest mode remote now ck false store attempt rem ns2).store := by
  intro rem
  induction rem with
  | zero => exact fun attempt store ns ns2 => ⟨rfl, rfl, rfl⟩
  | succ r ih =>
    intro attempt store ns ns2
    cases r with
    | zero =>
      cases hre : remote attempt with
      | ok s => simp [apiLoop, hre]
      | error e => simp [apiLoop, hre]
    | succ r2 =>
      cases hre : remote attempt with
      | ok s => simp [apiLoop, hre]
      | error e =>
        simp only [apiLoop, hre]
        refine ⟨(ih (attempt + 1) store _ _).1, ?_, (ih (attempt + 1) store _ _).2.2⟩
        exact congrArg (fun n => n + 1) (ih (attempt + 1) store _ _).2.1

/-- C9: for every request spec and every fixed behaviour of the cache and
the remote call, everything `call_openai_api` returns and does to the store
is the same whether a progress callback is supplied or not — the
progress-notice channel never affects control flow, the returned value, the
number of remote calls, or the cache. -/
theorem progress_callback_noninterference (digest : String → String) (mode : DbMode)
    (remote : Nat → Except String String) (store : CacheStore) (now : Nat)
    (prompt : List String) (system_prompt : Option (List String)) (model : String)
    (temperature : ℚ) (max_tokens : Nat) :
    observables (call_openai_api digest mode remote store now prompt system_prompt
      model temperature max_tokens true) =
    observables (call_openai_api digest mode remote store now prompt system_prompt
      model temperature max_tokens false) := by
  cases hget : get_cached_response digest mode store now
      (mkCacheKey prompt system_prompt model temperature max_tokens) "openai" with
  | error e => simp only [call_openai_api, hget]
  | ok cachedOpt =>
    cases cachedOpt with
    | some v =>
      cases htv : truthy v with
      | true =>
        simp only [call_openai_api, hget, htv, if_true]
        rfl
      | false =>
        simp only [call_openai_api, hget, htv, Bool.false_eq_true, if_false]
        by_cases hT : (4000 : ℚ) < sysTokens system_prompt + count_tokens prompt
        · simp only [if_pos hT]
          cases hop : optimize_prompt prompt
              (4000 - count_tokens (system_prompt.getD [])) with
          | error e => simp only [hop]
          | ok ws =>
            simp only [hop, observables]
            congr 1
            simp only [Prod.mk.injEq]
            refine ⟨(apiLoop_noninterference digest mode remote now _ 3 0 store _ _).1,
              ?_, ?_, ?_, ?_⟩
            · exact (apiLoop_noninterference digest mode remote now _ 3 0 store _ _).2.1
            · trivial
            · trivial
            · exact (apiLoop_noninterference digest mode remote now _ 3 0 store _ _).2.2
        · simp only [if_neg hT, observables]
          congr 1
          simp only [Prod.mk.injEq]
          refine ⟨(apiLoop_noninterference digest mode remote now _ 3 0 store _ _).1,
            ?_, ?_, ?_, ?_⟩
          · exact (apiLoop_noninterference digest mode remote now _ 3 0 store _ _).2.1
          · trivial
          · trivial
          · exact (apiLoop_noninterference digest mode remote now _ 3 0 store _ _).2.2
    | none =>
      simp only [call_openai_api, hget]
      by_cases hT : (4000 : ℚ) < sysTokens system_prompt + count_tokens prompt
      · simp only [if_pos hT]
        cases hop : optimize_prompt prompt
            (4000 - count_tokens (system_prompt.getD [])) with
        | error e => simp only [hop]
        | ok ws =>
          simp only [hop, observables]
          congr 1
          simp only [Prod.mk.injEq]
          refine ⟨(apiLoop_noninterference digest mode remote now _ 3 0 store _ _).1,
            ?_, ?_, ?_, ?_⟩
          · exact (apiLoop_noninterference digest mode remote now _ 3 0 store _ _).2.1
          · trivial
          · trivial
          · exact (apiLoop_noninterference digest mode remote now _ 3 0 store _ _).2.2
      · simp only [if_neg hT, observables]
        congr 1
        simp only [Prod.mk.injEq]
        refine ⟨(apiLoop_noninterference digest mode remote now _ 3 0 store _ _).1,
          ?_, ?_, ?_, ?_⟩
        · exact (apiLoop_noninterference digest mode remote now _ 3 0 store _ _).2.1
        · trivial
        · trivial
        · exact (apiLoop_noninterference digest mode remote now _ 3 0 store _ _).2.2

/-! ## C7 — cache-hit short-circuit and end-to-end round trip -/

/-- A *truthy* cached value short-circuits `call_openai_api`: the value is
returned as-is with zero remote calls, no token counting, no shaping, and an
untouched store. -/
theorem call_openai_api_hit (digest : String → String)
    (remote : Nat → Except String String) (store : CacheStore) (now : Nat)
    (prompt : List String) (system_prompt : Option (List String)) (model : String)
    (temperature : ℚ) (max_tokens : Nat) (cb : Bool) (v : Json)
    (h1 : get_cached_response digest DbMode.ok store now
      (mkCacheKey prompt system_prompt model temperature max_tokens) "openai" =
        Except.ok (some v))
    (htv : truthy v = true) :
    ∃ cr, call_openai_api digest DbMode.ok remote store now prompt system_prompt
        model temperature max_tokens cb = Except.ok cr ∧
      cr.result = v ∧ cr.remoteCalls = 0 ∧ cr.tokenCounting = false ∧
      cr.shaping = false ∧ cr.store = store := by
  simp only [call_openai_api, h1, htv, if_true]
  exact ⟨_, rfl, rfl, rfl, rfl, rfl, rfl⟩

/-- On a lookup that yields no truthy hit, with a first remote attempt that
succeeds, `call_openai_api` performs exactly one remote call and writes the
result to the cache under the original (pre-shaping) fingerprint. -/
theorem call_openai_api_first_success (digest : String → String)
    (remote : Nat → Except String String) (store : CacheStore) (now : Nat)
    (prompt : List String) (system_prompt : Option (List String)) (model : String)
    (temperature : ℚ) (max_tokens : Nat) (cb : Bool) (s : String) (r : Option Json)
    (h0 : get_cached_response digest DbMode.ok store now
      (mkCacheKey prompt system_prompt model temperature max_tokens) "openai" =
        Except.ok r)
    (hr : ∀ w, r = some w → truthy w = false)
    (hr0 : remote 0 = Except.ok s)
    (hp : prompt ≠ []) :
    ∃ cr, call_openai_api digest DbMode.ok remote store now prompt system_prompt
        model temperature max_tokens cb = Except.ok cr ∧
      cr.remoteCalls = 1 ∧ cr.result = .str s ∧
      cr.store = cache_response digest DbMode.ok store now
        (mkCacheKey prompt system_prompt model temperature max_tokens)
        (.str s) "openai" 24 := by
  cases r with
  | some w =>
    have hw : truthy w = false := hr w rfl
    simp only [call_openai_api, h0]
    rw [if_neg (show ¬ truthy w = true by simp [hw])]
    by_cases hT : (4000 : ℚ) < sysTokens system_prompt + count_tokens prompt
    · obtain ⟨ws, hws⟩ := optimize_prompt_ok_of_ne_nil prompt
        (4000 - count_tokens (system_prompt.getD [])) hp
      simp only [if_pos hT, hws, apiLoop, hr0]
      exact ⟨_, rfl, rfl, rfl, rfl⟩
    · simp only [if_neg hT, apiLoop, hr0]
      exact ⟨_, rfl, rfl, rfl, rfl⟩
  | none =>
    simp only [call_openai_api, h0]
    by_cases hT : (4000 : ℚ) < sysTokens system_prompt + count_tokens prompt
    · obtain ⟨ws, hws⟩ := optimize_prompt_ok_of_ne_nil prompt
        (4000 - count_tokens (system_prompt.getD [])) hp
      simp only [if_pos hT, hws, apiLoop, hr0]
      exact ⟨_, rfl, rfl, rfl, rfl⟩
    · simp only [if_neg hT, apiLoop, hr0]
      exact ⟨_, rfl, rfl, rfl, rfl⟩

/-- The fresh write lands in the durable store and is immediately readable:
the lookup of the just-written key at the same instant returns the value. -/
theorem get_after_cache_response (digest : String → String) (store : CacheStore)
    (now : Nat) (q resp : Json) (t : String) :
    get_cached_response digest DbMode.ok
      (cache_response digest DbMode.ok store now q resp t 24) now q t =
      Except.ok (some resp) := by
  simp [get_cached_response, cache_response, dbLookup_dbUpsert,
    Nat.lt_add_of_pos_right (by norm_num : 0 < 24)]

/-- C7 amended: (a) when the cache lookup returns a *truthy* stored value
(in particular any non-empty cached string), `call_openai_api` returns it
immediately with no token counting, no prompt shaping and no remote call;
(b) a first invocation whose lookup misses and whose first remote attempt
succeeds with a non-empty string performs exactly one remote call and writes
the result under the pre-shaping fingerprint, and a second invocation with
an identical request spec within the TTL returns the cached string with zero
remote calls, no token counting and no shaping — whatever the remote stub
would do on the second call. -/
theorem cache_hit_short_circuit_round_trip (digest : String → String)
    (remote remote2 : Nat → Except String String) (store : CacheStore) (now : Nat)
    (prompt : List String) (system_prompt : Option (List String)) (model : String)
    (temperature : ℚ) (max_tokens : Nat) (cb : Bool) (v : Json) (s : String) :
    (get_cached_response digest DbMode.ok store now
        (mkCacheKey prompt system_prompt model temperature max_tokens) "openai" =
          Except.ok (some v) →
      truthy v = true →
      ∃ cr, call_openai_api digest DbMode.ok remote store now prompt system_prompt
          model temperature max_tokens cb = Except.ok cr ∧
        cr.result = v ∧ cr.remoteCalls = 0 ∧ cr.tokenCounting = false ∧
        cr.shaping = false ∧ cr.store = store) ∧
    (get_cached_response digest DbMode.ok store now
        (mkCacheKey prompt system_prompt model temperature max_tokens) "openai" =
          Except.ok none →
      remote 0 = Except.ok s → s ≠ "" → prompt ≠ [] →
      ∃ cr1 cr2,
        call_openai_api digest DbMode.ok remote store now prompt system_prompt
          model temperature max_tokens cb = Except.ok cr1 ∧
        cr1.remoteCalls = 1 ∧ cr1.result = .str s ∧
        get_cached_response digest DbMode.ok cr1.store now
          (mkCacheKey prompt system_prompt model temperature max_tokens) "openai" =
            Except.ok (some (.str s)) ∧
        call_openai_api digest DbMode.ok remote2 cr1.store now prompt system_prompt
          model temperature max_tokens cb = Except.ok cr2 ∧
        cr2.result = .str s ∧ cr2.remoteCalls = 0 ∧
        cr2.tokenCounting = false ∧ cr2.shaping = false) := by
  constructor
  · intro hhit htv
    exact call_openai_api_hit digest remote store now prompt system_prompt model
      temperature max_tokens cb v hhit htv
  · intro h0 hr0 hs hp
    obtain ⟨cr1, hcall1, hn1, hres1, hst1⟩ := call_openai_api_first_success digest
      remote store now prompt system_prompt model temperature max_tokens cb s none h0
      (fun w h => nomatch h) hr0 hp
    have hget2 : get_cached_response digest DbMode.ok cr1.store now
        (mkCacheKey prompt system_prompt model temperature max_tokens) "openai" =
        Except.ok (some (.str s)) := by
      rw [hst1]
      exact get_after_cache_response digest store now
        (mkCacheKey prompt system_prompt model temperature max_tokens) (.str s) "openai"
    have hts : truthy (.str s) = true := by simp [truthy, hs]
    obtain ⟨cr2, hcall2, hres2, hn2, htc2, hsh2, _⟩ := call_openai_api_hit digest
      remote2 cr1.store now prompt system_prompt model temperature max_tokens cb
      (.str s) hget2 hts
    exact ⟨cr1, cr2, hcall1, hn1, hres1, hget2, hcall2, hres2, hn2, htc2, hsh2⟩

/-- C7 counterexample: the hit test is Python truthiness (`if
cached_response:`), so a cached *empty* string is treated as a miss.  After a
first call whose remote result is `""`, the second identical invocation finds
the stored value in the cache and still performs a remote call — the claim's
"zero remote calls on the second invocation" fails. -/
theorem cache_hit_short_circuit_cex :
    ∃ cr1 cr2,
      call_openai_api idDigest DbMode.ok (fun _ => Except.ok "") ⟨[], []⟩ 0
        ["hi"] none "m" 1 50 false = Except.ok cr1 ∧
      get_cached_response idDigest DbMode.ok cr1.store 0
        (mkCacheKey ["hi"] none "m" 1 50) "openai" =
          Except.ok (some (Json.str "")) ∧
      call_openai_api idDigest DbMode.ok (fun _ => Except.ok "") cr1.store 0
        ["hi"] none "m" 1 50 false = Except.ok cr2 ∧
      cr2.remoteCalls = 1 := by
  obtain ⟨cr1, hcall1, hn1, hres1, hst1⟩ := call_openai_api_first_success idDigest
    (fun _ => Except.ok "") ⟨[], []⟩ 0 ["hi"] none "m" 1 50 false "" none rfl
    (fun w h => nomatch h) rfl (by decide)
  have hget2 : get_cached_response idDigest DbMode.ok cr1.store 0
      (mkCacheKey ["hi"] none "m" 1 50) "openai" =
      Except.ok (some (Json.str "")) := by
    rw [hst1]
    exact get_after_cache_response idDigest ⟨[], []⟩ 0
      (mkCacheKey ["hi"] none "m" 1 50) (.str "") "openai"
  obtain ⟨cr2, hcall2, hn2, hres2, hst2⟩ := call_openai_api_first_success idDigest
    (fun _ => Except.ok "") cr1.store 0 ["hi"] none "m" 1 50 false ""
    (some (Json.str "")) hget2 (fun w h => by cases h; rfl) rfl (by decide)
  exact ⟨cr1, cr2, hcall1, hget2, hcall2, hn2⟩

/-- Witness for the amended C7 theorem: both conjuncts exercised at concrete
inputs — a pre-populated cache for the truthy-hit short-circuit, and an empty
cache plus a succeeding remote stub for the round trip. -/
theorem cache_hit_short_circuit_round_trip_witness :
    (∃ cr, call_openai_api idDigest DbMode.ok (fun _ => Except.ok "hello")
        (cache_response idDigest DbMode.ok ⟨[], []⟩ 0
          (mkCacheKey ["hi"] none "m" 1 50) (.str "hello") "openai" 24) 0
        ["hi"] none "m" 1 50 false = Except.ok cr ∧
      cr.result = .str "hello" ∧ cr.remoteCalls = 0 ∧ cr.tokenCounting = false ∧
      cr.shaping = false ∧ cr.store = cache_response idDigest DbMode.ok ⟨[], []⟩ 0
        (mkCacheKey ["hi"] none "m" 1 50) (.str "hello") "openai" 24) ∧
    (∃ cr1 cr2,
      call_openai_api idDigest DbMode.ok (fun _ => Except.ok "hello") ⟨[], []⟩ 0
        ["hi"] none "m" 1 50 false = Except.ok cr1 ∧
      cr1.remoteCalls = 1 ∧ cr1.result = .str "hello" ∧
      get_cached_response idDigest DbMode.ok cr1.store 0
        (mkCacheKey ["hi"] none "m" 1 50) "openai" =
          Except.ok (some (.str "hello")) ∧
      call_openai_api idDigest DbMode.ok (fun _ => Except.error "down") cr1.store 0
        ["hi"] none "m" 1 50 false = Except.ok cr2 ∧
      cr2.result = .str "hello" ∧ cr2.remoteCalls = 0 ∧
      cr2.tokenCounting = false ∧ cr2.shaping = false) := by
  constructor
  · exact (cache_hit_short_circuit_round_trip idDigest (fun _ => Except.ok "hello")
      (fun _ => Except.error "down")
      (cache_response idDigest DbMode.ok ⟨[], []⟩ 0
        (mkCacheKey ["hi"] none "m" 1 50) (.str "hello") "openai" 24)
      0 ["hi"] none "m" 1 50 false (.str "hello") "hello").1
      (get_after_cache_response idDigest ⟨[], []⟩ 0
        (mkCacheKey ["hi"] none "m" 1 50) (.str "hello") "openai") rfl
  · exact (cache_hit_short_circuit_round_trip idDigest (fun _ => Except.ok "hello")
      (fun _ => Except.error "down") ⟨[], []⟩
      0 ["hi"] none "m" 1 50 false (.str "hello") "hello").2
      rfl rfl (by decide) (by decide)
